import Mathlib

/-!
Shallow embedding of `src/src/index.ts` (class `WiFiConnectionManager`).

The manager is a state machine driven by driver events and two single-shot
timers.  We embed each method of the class as a pure function on a `World`
that carries the manager's fields together with the observable environment:
the timer service's set of live handles, the sequence of callback
invocations, and the sequence of driver calls.

Environment model (the `wifi` and `timer` modules are external collaborators,
described in the specification's interface section):
- `Timer.set` returns a fresh handle and makes it live; `Timer.clear` removes
  a handle from the live set and is a safe no-op on a handle that already
  fired or was already cleared.  We log every `Timer.clear` the manager
  issues in `clearedHandles`.
- `WiFi.connect(cfg)` may be rejected synchronously (oracle `Bool`); a call
  with a missing credential (out-of-range index) always fails.
- `WiFi.disconnect()` succeeds only while the driver is associated
  (`driverConnected`); `super.close()` releases the driver, idempotently.
  Failures of either are recorded on the call with an `eff`ective flag;
  the manager's `try/catch` swallowing is modelled by the functions being
  total.
-/

/-- The six event tags of the `wifi` module, as in the `WiFiMessage` type of
the source. -/
inductive WiFiMessage where
  | gotIP
  | lostIP
  | connect
  | disconnect
  | station_connect
  | station_disconnect
deriving DecidableEq, Repr

/-- An access-point credential (`WiFiOptions` in the source). -/
structure WiFiOptions where
  ssid : String
  password : String
deriving DecidableEq, Repr

/-- A driver call issued by the manager, with the credential passed (if any)
and whether the driver accepted it / it had an effect. -/
inductive DriverCall where
  | connectCall (cfg : Option WiFiOptions) (eff : Bool)
  | disconnectCall (eff : Bool)
  | releaseCall (eff : Bool)
deriving DecidableEq, Repr

/-- The mutable fields of `WiFiConnectionManager`: the two optional timer
handles, the last processed message (`currentState`, initially
`"disconnect"`), and the candidate cursor (`APIndex`, initially `0`). -/
structure Manager where
  reconnectTimer : Option Nat
  connectionTimer : Option Nat
  currentState : WiFiMessage
  APIndex : Nat
deriving DecidableEq, Repr

/-- Manager state plus observable environment: the (read-only) candidate
list, the timer service's fresh-handle counter and live handles per role,
the cancel calls issued, the callback invocations, the driver calls, and
the driver's association/release status. -/
structure World where
  mgr : Manager
  accessPointConfig : List WiFiOptions
  nextHandle : Nat
  liveConnection : List Nat
  liveReconnect : List Nat
  clearedHandles : List Nat
  callbackTrace : List WiFiMessage
  driverCalls : List DriverCall
  driverConnected : Bool
  driverReleased : Bool
deriving DecidableEq, Repr

/-- `clearConnectionTimer`: if a connection-timeout handle is held, issue
`Timer.clear` on it and drop the field. -/
def clearConnectionTimer (w : World) : World :=
  match w.mgr.connectionTimer with
  | some h =>
      { w with
        mgr := { w.mgr with connectionTimer := none }
        liveConnection := w.liveConnection.erase h
        clearedHandles := w.clearedHandles ++ [h] }
  | none => w

/-- `clearReconnectTimer`: if a reconnect-backoff handle is held, issue
`Timer.clear` on it and drop the field. -/
def clearReconnectTimer (w : World) : World :=
  match w.mgr.reconnectTimer with
  | some h =>
      { w with
        mgr := { w.mgr with reconnectTimer := none }
        liveReconnect := w.liveReconnect.erase h
        clearedHandles := w.clearedHandles ++ [h] }
  | none => w

/-- `clearTimers`: clear the connection timer, then the reconnect timer. -/
def clearTimers (w : World) : World :=
  clearReconnectTimer (clearConnectionTimer w)

/-- `startConnectionTimer`: `this.connectionTimer = Timer.set(...)` — obtain
a fresh handle from the timer service and store it.  Note the source does
not clear an existing connection handle here. -/
def startConnectionTimer (w : World) : World :=
  { w with
    mgr := { w.mgr with connectionTimer := some w.nextHandle }
    nextHandle := w.nextHandle + 1
    liveConnection := w.liveConnection ++ [w.nextHandle] }

/-- `handleDisconnect`: clear the connection timer, advance `APIndex`
modulo the candidate count, clear any reconnect timer and schedule a new
one, and — only if `currentState` is not already `"disconnect"` — set the
state and forward `"disconnect"` to the callback. -/
def handleDisconnect (w : World) : World :=
  let w1 := clearConnectionTimer w
  let w2 :=
    { w1 with
      mgr := { w1.mgr with
               APIndex := (w1.mgr.APIndex + 1) % w1.accessPointConfig.length } }
  let w3 := clearReconnectTimer w2
  let w4 :=
    { w3 with
      mgr := { w3.mgr with reconnectTimer := some w3.nextHandle }
      nextHandle := w3.nextHandle + 1
      liveReconnect := w3.liveReconnect ++ [w3.nextHandle] }
  if w4.mgr.currentState ≠ WiFiMessage.disconnect then
    { w4 with
      mgr := { w4.mgr with currentState := WiFiMessage.disconnect }
      callbackTrace := w4.callbackTrace ++ [WiFiMessage.disconnect] }
  else
    w4

/-- `handleWiFiEvent`: dispatch on the message, then unconditionally set
`currentState := message` and forward the message to the callback. -/
def handleWiFiEvent (w : World) (message : WiFiMessage) : World :=
  let w1 :=
    if message = WiFiMessage.disconnect then
      handleDisconnect w
    else if message = WiFiMessage.gotIP then
      let t := clearTimers w
      { t with mgr := { t.mgr with APIndex := 0 } }
    else if message = WiFiMessage.connect then
      clearReconnectTimer w
    else
      w
  { w1 with
    mgr := { w1.mgr with currentState := message }
    callbackTrace := w1.callbackTrace ++ [message] }

/-- The `ready` getter: `currentState === "gotIP"`. -/
def ready (m : Manager) : Bool :=
  m.currentState = WiFiMessage.gotIP

/-- The reconnect-backoff timer's callback firing (only possible while its
handle is live): null the handle, attempt `WiFi.connect` with the candidate
at the current cursor (`connectOK` is the driver's synchronous verdict; a
missing credential always fails), and on success start a fresh connection
timer, on synchronous failure re-run `handleDisconnect`. -/
def fireReconnectTimer (w : World) (connectOK : Bool) : World :=
  match w.mgr.reconnectTimer with
  | none => w
  | some h =>
      let w0 :=
        { w with
          mgr := { w.mgr with reconnectTimer := none }
          liveReconnect := w.liveReconnect.erase h }
      let cfg := w0.accessPointConfig.get? w0.mgr.APIndex
      let ok := connectOK && cfg.isSome
      let w1 := { w0 with driverCalls := w0.driverCalls ++ [DriverCall.connectCall cfg ok] }
      if ok then startConnectionTimer w1 else handleDisconnect w1

/-- The connection-timeout timer's callback firing (only possible while its
handle is live): clear its own handle, then force `WiFi.disconnect`
(succeeds only while the driver is associated; failure is swallowed). -/
def fireConnectionTimer (w : World) : World :=
  match w.mgr.connectionTimer with
  | none => w
  | some h =>
      let w0 := { w with liveConnection := w.liveConnection.erase h }
      let w1 := clearConnectionTimer w0
      { w1 with
        driverCalls := w1.driverCalls ++ [DriverCall.disconnectCall w1.driverConnected]
        driverConnected := false }

/-- `close`: clear both timers, issue `WiFi.disconnect` (failure swallowed),
then `super.close()` releasing the driver (failure swallowed, release
idempotent). -/
def close (w : World) : World :=
  let w1 := clearTimers w
  let w2 :=
    { w1 with
      driverCalls := w1.driverCalls ++ [DriverCall.disconnectCall w1.driverConnected]
      driverConnected := false }
  { w2 with
    driverCalls := w2.driverCalls ++ [DriverCall.releaseCall (!w2.driverReleased)]
    driverReleased := true }

/-- A driver event delivery: the driver updates its own association status
(association is gained on `connect`/`gotIP` and lost on `disconnect`), then
the registered callback `handleWiFiEvent` runs. -/
def stepEvent (w : World) (m : WiFiMessage) : World :=
  let w0 :=
    { w with
      driverConnected :=
        if m = WiFiMessage.connect ∨ m = WiFiMessage.gotIP then true
        else if m = WiFiMessage.disconnect then false
        else w.driverConnected }
  handleWiFiEvent w0 m

/-- The external stimuli the manager reacts to after construction. -/
inductive Step where
  | event (m : WiFiMessage)
  | reconnectFires (connectOK : Bool)
  | connectionFires
  | closeCall
deriving DecidableEq, Repr

/-- One step of the world under a stimulus. -/
def stepWorld (w : World) (s : Step) : World :=
  match s with
  | Step.event m => stepEvent w m
  | Step.reconnectFires connectOK => fireReconnectTimer w connectOK
  | Step.connectionFires => fireConnectionTimer w
  | Step.closeCall => close w

/-- Run a sequence of stimuli. -/
def run (w : World) (ss : List Step) : World :=
  List.foldl stepWorld w ss

/-- The constructor: `super(accessPointConfig[0], handler)` issues a driver
connect with the first candidate (`none` when the list is empty —
`accessPointConfig[0]` is `undefined`; such a call fails, as the driver
interface rejects a missing/invalid credential), then
`startConnectionTimer()`.  A failing `super` call throws out of the
constructor (there is no `try/catch`): the `Except.error` payload is the
world at the point the exception escapes. -/
def construct (accessPointConfig : List WiFiOptions) (connectOK : Bool) :
    Except World World :=
  let cfg := accessPointConfig.get? 0
  let ok := connectOK && cfg.isSome
  let w0 : World :=
    { mgr :=
        { reconnectTimer := none
          connectionTimer := none
          currentState := WiFiMessage.disconnect
          APIndex := 0 }
      accessPointConfig := accessPointConfig
      nextHandle := 0
      liveConnection := []
      liveReconnect := []
      clearedHandles := []
      callbackTrace := []
      driverCalls := [DriverCall.connectCall cfg ok]
      driverConnected := false
      driverReleased := false }
  if ok then Except.ok (startConnectionTimer w0) else Except.error w0

/-- A world is reachable when it arises from a successful construction
followed by some sequence of stimuli. -/
def Reachable (w : World) : Prop :=
  ∃ apc ok ss w0, construct apc ok = Except.ok w0 ∧ run w0 ss = w

/-- Cursor after `k` consecutive `disconnect` deliveries. -/
def cursorAfter (w : World) (k : Nat) : Nat :=
  (run w (List.replicate k (Step.event WiFiMessage.disconnect))).mgr.APIndex

/-! ## Concrete worlds used as witnesses -/

/-- A sample candidate. -/
def apA : WiFiOptions := { ssid := "alpha", password := "pw1" }

/-- A second sample candidate. -/
def apB : WiFiOptions := { ssid := "beta", password := "pw2" }

/-- The world right after a successful construction with two candidates. -/
def exWorld : World :=
  { mgr := { reconnectTimer := none, connectionTimer := some 0,
             currentState := WiFiMessage.disconnect, APIndex := 0 }
    accessPointConfig := [apA, apB]
    nextHandle := 1
    liveConnection := [0]
    liveReconnect := []
    clearedHandles := []
    callbackTrace := []
    driverCalls := [DriverCall.connectCall (some apA) true]
    driverConnected := false
    driverReleased := false }

/-- The world after one `disconnect` delivery to `exWorld` (a reconnect
backoff timer is pending there). -/
def exWorldD : World := stepEvent exWorld WiFiMessage.disconnect

/-- The world after `exWorld` receives `gotIP` (a Connected manager). -/
def exWorldC : World := stepEvent exWorld WiFiMessage.gotIP

/-- The world carried by the exception when construction is attempted with
an empty candidate list: `accessPointConfig[0]` is `undefined`, the base
driver connect rejects it, and the error escapes the constructor before any
timer is started. -/
def emptyConstructWorld : World :=
  { mgr := { reconnectTimer := none, connectionTimer := none,
             currentState := WiFiMessage.disconnect, APIndex := 0 }
    accessPointConfig := []
    nextHandle := 0
    liveConnection := []
    liveReconnect := []
    clearedHandles := []
    callbackTrace := []
    driverCalls := [DriverCall.connectCall none false]
    driverConnected := false
    driverReleased := false }

/-- Number of driver disconnect calls in a trace that actually took effect. -/
def effectiveDisconnects (l : List DriverCall) : Nat :=
  (l.filter fun c => decide (c = DriverCall.disconnectCall true)).length

/-- Number of driver release calls in a trace that actually took effect. -/
def effectiveReleases (l : List DriverCall) : Nat :=
  (l.filter fun c => decide (c = DriverCall.releaseCall true)).length


/-! ## Shared invariant of reachable worlds -/

/-- Well-formedness of a world: the timer service's live handles per role are
exactly the held handles (hence at most one per role), a pending reconnect
backoff implies no connection timer is held (this is what makes the missing
clear in `startConnectionTimer` safe), and the cursor is in range. -/
def WorldInv (w : World) : Prop :=
  w.liveConnection = w.mgr.connectionTimer.toList ∧
  w.liveReconnect = w.mgr.reconnectTimer.toList ∧
  (w.mgr.reconnectTimer.isSome → w.mgr.connectionTimer = none) ∧
  w.mgr.APIndex < w.accessPointConfig.length

lemma inv_len_pos (w : World) (h : WorldInv w) : 0 < w.accessPointConfig.length :=
  Nat.lt_of_le_of_lt (Nat.zero_le _) h.2.2.2

lemma inv_handleDisconnect (w : World) (h : WorldInv w) : WorldInv (handleDisconnect w) := by
  obtain ⟨hc, hr, _, hap⟩ := h
  have hlen : 0 < w.accessPointConfig.length := Nat.lt_of_le_of_lt (Nat.zero_le _) hap
  unfold handleDisconnect clearConnectionTimer clearReconnectTimer WorldInv
  rcases hco : w.mgr.connectionTimer with _ | ch <;>
    rcases hro : w.mgr.reconnectTimer with _ | rh <;>
      simp_all <;> split <;> simp_all [Nat.mod_lt]

lemma inv_stepEvent (w : World) (m : WiFiMessage) (h : WorldInv w) : WorldInv (stepEvent w m) := by
  have hlen := inv_len_pos w h
  cases m
  case disconnect =>
    have hd := inv_handleDisconnect
      { w with driverConnected := false } ⟨h.1, h.2.1, h.2.2.1, h.2.2.2⟩
    obtain ⟨hc, hr, hcr, hap⟩ := hd
    simp only [stepEvent, handleWiFiEvent, WorldInv]
    simp_all
  all_goals
    obtain ⟨hc, hr, hcr, hap⟩ := h
    simp only [stepEvent, handleWiFiEvent, WorldInv, clearTimers,
      clearConnectionTimer, clearReconnectTimer]
    rcases hco : w.mgr.connectionTimer with _ | ch <;>
      rcases hro : w.mgr.reconnectTimer with _ | rh <;> simp_all

lemma inv_fireReconnectTimer (w : World) (co : Bool) (h : WorldInv w) :
    WorldInv (fireReconnectTimer w co) := by
  obtain ⟨hc, hr, hcr, hap⟩ := h
  unfold fireReconnectTimer
  rcases hro : w.mgr.reconnectTimer with _ | rh
  · exact ⟨hc, hr, hcr, hap⟩
  · have hcn : w.mgr.connectionTimer = none := hcr (by rw [hro]; rfl)
    have hlr : w.liveReconnect = [rh] := by rw [hr, hro]; rfl
    have hlc : w.liveConnection = [] := by rw [hc, hcn]; rfl
    have hsome : w.accessPointConfig.get? w.mgr.APIndex
        = some (w.accessPointConfig.get ⟨w.mgr.APIndex, hap⟩) := List.get?_eq_get hap
    cases co
    · simp only [hsome, Bool.false_and]
      apply inv_handleDisconnect
      exact ⟨by simp [hlc, hcn], by simp [hlr], by simp, by simpa using hap⟩
    · simp only [hsome, Option.isSome_some, Bool.and_true]
      exact ⟨by simp [startConnectionTimer, hlc, hcn], by simp [startConnectionTimer, hlr],
        by simp [startConnectionTimer], by simpa [startConnectionTimer] using hap⟩

lemma inv_fireConnectionTimer (w : World) (h : WorldInv w) :
    WorldInv (fireConnectionTimer w) := by
  obtain ⟨hc, hr, hcr, hap⟩ := h
  unfold fireConnectionTimer clearConnectionTimer
  rcases hco : w.mgr.connectionTimer with _ | ch
  · simp only [hco]
    exact ⟨hc, hr, hcr, hap⟩
  · have hlc : w.liveConnection = [ch] := by rw [hc, hco]; rfl
    simp only [hco]
    exact ⟨by simp [hlc], by simp [hr], by simp, by simpa using hap⟩

lemma inv_close (w : World) (h : WorldInv w) : WorldInv (close w) := by
  obtain ⟨hc, hr, hcr, hap⟩ := h
  unfold close clearTimers clearConnectionTimer clearReconnectTimer
  rcases hco : w.mgr.connectionTimer with _ | ch <;>
    rcases hro : w.mgr.reconnectTimer with _ | rh <;>
      exact ⟨by simp_all, by simp_all, by simp_all, by simpa using hap⟩

lemma inv_stepWorld (w : World) (s : Step) (h : WorldInv w) : WorldInv (stepWorld w s) := by
  cases s
  case event m => exact inv_stepEvent w m h
  case reconnectFires co => exact inv_fireReconnectTimer w co h
  case connectionFires => exact inv_fireConnectionTimer w h
  case closeCall => exact inv_close w h

lemma inv_run (w : World) (ss : List Step) (h : WorldInv w) : WorldInv (run w ss) := by
  induction ss generalizing w with
  | nil => exact h
  | cons s ss ih => exact ih (stepWorld w s) (inv_stepWorld w s h)

lemma inv_construct (apc : List WiFiOptions) (ok : Bool) (w0 : World)
    (h : construct apc ok = Except.ok w0) : WorldInv w0 := by
  unfold construct at h
  by_cases hok : (ok && (apc.get? 0).isSome) = true
  · rw [if_pos hok] at h
    have hlen : 0 < apc.length := by
      rcases apc with _ | ⟨a, l⟩
      · simp at hok
      · simp
    cases h
    exact ⟨by simp [startConnectionTimer], by simp [startConnectionTimer],
      by simp [startConnectionTimer], by simpa [startConnectionTimer] using hlen⟩
  · rw [if_neg hok] at h
    cases h

lemma reachable_inv (w : World) (h : Reachable w) : WorldInv w := by
  obtain ⟨apc, ok, ss, w0, hc, hrun⟩ := h
  exact hrun ▸ inv_run w0 ss (inv_construct apc ok w0 hc)

lemma reachable_stepWorld (w : World) (s : Step) (h : Reachable w) :
    Reachable (stepWorld w s) := by
  obtain ⟨apc, ok, ss, w0, hc, hrun⟩ := h
  refine ⟨apc, ok, ss ++ [s], w0, hc, ?_⟩
  unfold run at hrun ⊢
  rw [List.foldl_append, hrun]
  rfl

/-! ## Characterization lemmas -/

lemma handleDisconnect_spec (w : World) :
    (handleDisconnect w).mgr.APIndex = (w.mgr.APIndex + 1) % w.accessPointConfig.length ∧
    (handleDisconnect w).mgr.connectionTimer = none ∧
    (handleDisconnect w).mgr.reconnectTimer = some w.nextHandle ∧
    (handleDisconnect w).mgr.currentState = WiFiMessage.disconnect ∧
    (handleDisconnect w).nextHandle = w.nextHandle + 1 ∧
    (handleDisconnect w).accessPointConfig = w.accessPointConfig ∧
    (handleDisconnect w).driverCalls = w.driverCalls ∧
    (handleDisconnect w).driverConnected = w.driverConnected ∧
    (handleDisconnect w).driverReleased = w.driverReleased ∧
    (handleDisconnect w).callbackTrace
      = w.callbackTrace ++
        (if w.mgr.currentState = WiFiMessage.disconnect then []
         else [WiFiMessage.disconnect]) := by
  unfold handleDisconnect clearConnectionTimer clearReconnectTimer
  rcases hco : w.mgr.connectionTimer with _ | ch <;>
    rcases hro : w.mgr.reconnectTimer with _ | rh <;>
      simp [hco, hro] <;> split <;> simp_all

lemma stepEvent_disconnect_spec (w : World) :
    (stepEvent w WiFiMessage.disconnect).mgr.APIndex
        = (w.mgr.APIndex + 1) % w.accessPointConfig.length ∧
    (stepEvent w WiFiMessage.disconnect).accessPointConfig = w.accessPointConfig := by
  have h := handleDisconnect_spec
    { w with driverConnected := false }
  unfold stepEvent handleWiFiEvent
  simp only [reduceIte]
  exact ⟨h.1, h.2.2.2.2.2.1⟩

lemma run_disconnects (w : World) (k : Nat)
    (hi : w.mgr.APIndex < w.accessPointConfig.length) :
    cursorAfter w k = (w.mgr.APIndex + k) % w.accessPointConfig.length := by
  have hlen : 0 < w.accessPointConfig.length := Nat.lt_of_le_of_lt (Nat.zero_le _) hi
  induction k generalizing w with
  | zero => simpa [cursorAfter, run] using (Nat.mod_eq_of_lt hi).symm
  | succ k ih =>
      have hstep := stepEvent_disconnect_spec w
      have hrw : cursorAfter w (k + 1)
          = cursorAfter (stepEvent w WiFiMessage.disconnect) k := rfl
      rw [hrw]
      have hi2 : (stepEvent w WiFiMessage.disconnect).mgr.APIndex
          < (stepEvent w WiFiMessage.disconnect).accessPointConfig.length := by
        rw [hstep.1, hstep.2]
        exact Nat.mod_lt _ hlen
      rw [ih (stepEvent w WiFiMessage.disconnect) hi2
        (Nat.lt_of_le_of_lt (Nat.zero_le _) hi2)]
      rw [hstep.1, hstep.2, Nat.mod_add_mod]
      have harith : w.mgr.APIndex + 1 + k = w.mgr.APIndex + (k + 1) := by omega
      rw [harith]

lemma construct_exWorld : construct [apA, apB] true = Except.ok exWorld := rfl

lemma reachable_exWorld : Reachable exWorld :=
  ⟨[apA, apB], true, [], exWorld, construct_exWorld, rfl⟩

lemma reachable_exWorldD : Reachable exWorldD :=
  reachable_stepWorld exWorld (Step.event WiFiMessage.disconnect) reachable_exWorld

/-! ## Claim theorems -/

/-- C1: refuted by the code — redundancy suppression is not implemented.
A freshly constructed manager is already in the `disconnect` state; two
consecutive `disconnect` deliveries (no intervening `connect`/`gotIP`)
invoke the caller's callback with `"disconnect"` twice, once per event,
because `handleWiFiEvent` unconditionally forwards every message after its
dispatch, defeating the guard inside `handleDisconnect`.  Worse, one single
`disconnect` event delivered while Connected notifies the caller twice
within that one event.  The claim (and the class's own doc comment
"Suppresses redundant WiFi.disconnect messages") requires exactly one
notification across the two events. -/
theorem C1_redundancy_not_suppressed :
    exWorld.mgr.currentState = WiFiMessage.disconnect ∧
    (stepEvent (stepEvent exWorld WiFiMessage.disconnect)
        WiFiMessage.disconnect).callbackTrace
      = [WiFiMessage.disconnect, WiFiMessage.disconnect] ∧
    (stepEvent (stepEvent exWorld WiFiMessage.gotIP)
        WiFiMessage.disconnect).callbackTrace
      = [WiFiMessage.gotIP, WiFiMessage.disconnect, WiFiMessage.disconnect] := by
  exact ⟨rfl, rfl, rfl⟩

/-- C2 counterexample: a Connected manager (`ready = true`) that receives a
`station_connect` event has its lifecycle state overwritten with
`station_connect`, so `ready` becomes `false` — the claim asserts the state
is unchanged and `ready` stays `true`. -/
theorem C2_counterexample :
    ready exWorldC.mgr = true ∧
    (stepEvent exWorldC WiFiMessage.station_connect).mgr.currentState
      = WiFiMessage.station_connect ∧
    ready (stepEvent exWorldC WiFiMessage.station_connect).mgr = false := by
  exact ⟨rfl, rfl, rfl⟩

/-- C2 amended: `stationConnect` / `stationDisconnect` events are forwarded
to the callback and leave the cursor, both timer handles, the live timers,
the cancel log, and the driver untouched; however `handleWiFiEvent`
unconditionally assigns `currentState := message`, so the event tag becomes
the current state and `ready` is `false` afterwards (`ready` is true iff
`currentState = gotIP`, i.e. iff the last processed event was `gotIP`). -/
theorem C2_station_passthrough (w : World) (m : WiFiMessage)
    (hm : m = WiFiMessage.station_connect ∨ m = WiFiMessage.station_disconnect) :
    (stepEvent w m).mgr.APIndex = w.mgr.APIndex ∧
    (stepEvent w m).mgr.connectionTimer = w.mgr.connectionTimer ∧
    (stepEvent w m).mgr.reconnectTimer = w.mgr.reconnectTimer ∧
    (stepEvent w m).liveConnection = w.liveConnection ∧
    (stepEvent w m).liveReconnect = w.liveReconnect ∧
    (stepEvent w m).clearedHandles = w.clearedHandles ∧
    (stepEvent w m).driverCalls = w.driverCalls ∧
    (stepEvent w m).callbackTrace = w.callbackTrace ++ [m] ∧
    (stepEvent w m).mgr.currentState = m ∧
    ready (stepEvent w m).mgr = false := by
  rcases hm with hm | hm <;> subst hm <;>
    exact ⟨rfl, rfl, rfl, rfl, rfl, rfl, rfl, rfl, rfl, rfl⟩

/-- Witness for the amended C2 at `exWorldC` with `station_connect`. -/
theorem C2_station_passthrough_witness :
    (stepEvent exWorldC WiFiMessage.station_connect).mgr.APIndex
      = exWorldC.mgr.APIndex ∧
    (stepEvent exWorldC WiFiMessage.station_connect).mgr.connectionTimer
      = exWorldC.mgr.connectionTimer ∧
    (stepEvent exWorldC WiFiMessage.station_connect).mgr.reconnectTimer
      = exWorldC.mgr.reconnectTimer ∧
    (stepEvent exWorldC WiFiMessage.station_connect).liveConnection
      = exWorldC.liveConnection ∧
    (stepEvent exWorldC WiFiMessage.station_connect).liveReconnect
      = exWorldC.liveReconnect ∧
    (stepEvent exWorldC WiFiMessage.station_connect).clearedHandles
      = exWorldC.clearedHandles ∧
    (stepEvent exWorldC WiFiMessage.station_connect).driverCalls
      = exWorldC.driverCalls ∧
    (stepEvent exWorldC WiFiMessage.station_connect).callbackTrace
      = exWorldC.callbackTrace ++ [WiFiMessage.station_connect] ∧
    (stepEvent exWorldC WiFiMessage.station_connect).mgr.currentState
      = WiFiMessage.station_connect ∧
    ready (stepEvent exWorldC WiFiMessage.station_connect).mgr = false :=
  C2_station_passthrough exWorldC WiFiMessage.station_connect (Or.inl rfl)

/-- C3 counterexample: the manager has no closed flag and `handleWiFiEvent`
has no guard, so a `gotIP` delivered after `close()` is processed normally —
`ready` becomes `true` and the callback is invoked — contradicting the
claim that every post-close event is discarded. -/
theorem C3_counterexample :
    ready (stepEvent (close exWorld) WiFiMessage.gotIP).mgr = true ∧
    (stepEvent (close exWorld) WiFiMessage.gotIP).callbackTrace
      = [WiFiMessage.gotIP] := by
  exact ⟨rfl, rfl⟩

/-- C3 amended: after `close()` the manager does not fault on a delivered
event, but neither does it discard it: the event is processed by the normal
`handleWiFiEvent` path.  In particular a post-close `gotIP` sets
`currentState := gotIP` (so `ready` becomes `true`) and is forwarded to the
callback.  Discarding relies entirely on the driver not delivering events
after release. -/
theorem C3_post_close_processed (w : World) :
    ready (stepEvent (close w) WiFiMessage.gotIP).mgr = true ∧
    (stepEvent (close w) WiFiMessage.gotIP).mgr.currentState = WiFiMessage.gotIP ∧
    (close w).callbackTrace = w.callbackTrace ∧
    (stepEvent (close w) WiFiMessage.gotIP).callbackTrace
      = w.callbackTrace ++ [WiFiMessage.gotIP] := by
  rcases hco : w.mgr.connectionTimer with _ | ch <;>
    rcases hro : w.mgr.reconnectTimer with _ | rh <;>
      simp [stepEvent, handleWiFiEvent, clearTimers, clearConnectionTimer,
        clearReconnectTimer, close, ready, hco, hro]

/-- C5 counterexample: constructing with an empty candidate list does issue
a driver call — `super(accessPointConfig[0], ...)` passes the missing
credential to the driver (which rejects it); the claim asserts no driver
call is issued. -/
theorem C5_counterexample :
    construct [] true = Except.error emptyConstructWorld ∧
    emptyConstructWorld.driverCalls ≠ [] := by
  exact ⟨rfl, by simp [emptyConstructWorld]⟩

/-- C5 amended: constructing with an empty candidate list fails with an
error surfaced immediately to the caller (the base-class connect call
rejects the `undefined` credential and the constructor has no `try/catch`),
and no timer is started; however there is no pre-validation — exactly one
(failed) driver connect call is issued. -/
theorem C5_empty_list_construction (ok : Bool) :
    construct [] ok = Except.error emptyConstructWorld ∧
    emptyConstructWorld.mgr.connectionTimer = none ∧
    emptyConstructWorld.mgr.reconnectTimer = none ∧
    emptyConstructWorld.liveConnection = [] ∧
    emptyConstructWorld.liveReconnect = [] ∧
    emptyConstructWorld.callbackTrace = [] ∧
    emptyConstructWorld.driverCalls = [DriverCall.connectCall none false] := by
  cases ok <;> exact ⟨rfl, rfl, rfl, rfl, rfl, rfl, rfl⟩

/-- C4: `close` is idempotent and callable from any state (it is a total
function — driver failures are swallowed, never propagated, and the caller
callback is never invoked by it).  After the first close both timer handles
are `none` and the second close leaves the manager fields untouched and
issues no `Timer.clear` at all (no double-cancellation).  Across the two
calls the driver-call trace grows by exactly one disconnect/release pair
that can take effect plus one disconnect and one release that are no-ops
(the driver is already disconnected and released), so at most one effective
disconnect and one effective release are issued. -/
theorem C4_close_idempotent (w : World) :
    (close w).mgr.connectionTimer = none ∧
    (close w).mgr.reconnectTimer = none ∧
    (close (close w)).mgr = (close w).mgr ∧
    (close (close w)).clearedHandles = (close w).clearedHandles ∧
    (close (close w)).callbackTrace = w.callbackTrace ∧
    (close (close w)).driverCalls
      = w.driverCalls ++
        [DriverCall.disconnectCall w.driverConnected,
         DriverCall.releaseCall (!w.driverReleased),
         DriverCall.disconnectCall false,
         DriverCall.releaseCall false] ∧
    effectiveDisconnects
      ((close (close w)).driverCalls.drop w.driverCalls.length) ≤ 1 ∧
    effectiveReleases
      ((close (close w)).driverCalls.drop w.driverCalls.length) ≤ 1 := by
  rcases hco : w.mgr.connectionTimer with _ | ch <;>
    rcases hro : w.mgr.reconnectTimer with _ | rh <;>
      cases hdc : w.driverConnected <;> cases hdr : w.driverReleased <;>
        simp [close, clearTimers, clearConnectionTimer, clearReconnectTimer,
          effectiveDisconnects, effectiveReleases, hco, hro, hdc, hdr,
          List.drop_left]

/-- C7: from any reachable state, a `gotIP` event cancels both timers (both
handles become `none`, the live handles of both roles are gone, and the
cancel calls for exactly the held handles are issued), resets the cursor to
`0`, makes the last processed event `gotIP` (so `ready` is `true`), and
forwards `gotIP` to the callback. -/
theorem C7_gotIP_resets (w : World) (hr : Reachable w) :
    (stepEvent w WiFiMessage.gotIP).mgr.connectionTimer = none ∧
    (stepEvent w WiFiMessage.gotIP).mgr.reconnectTimer = none ∧
    (stepEvent w WiFiMessage.gotIP).liveConnection = [] ∧
    (stepEvent w WiFiMessage.gotIP).liveReconnect = [] ∧
    (stepEvent w WiFiMessage.gotIP).mgr.APIndex = 0 ∧
    (stepEvent w WiFiMessage.gotIP).mgr.currentState = WiFiMessage.gotIP ∧
    ready (stepEvent w WiFiMessage.gotIP).mgr = true ∧
    (stepEvent w WiFiMessage.gotIP).callbackTrace
      = w.callbackTrace ++ [WiFiMessage.gotIP] ∧
    (stepEvent w WiFiMessage.gotIP).clearedHandles
      = w.clearedHandles ++ w.mgr.connectionTimer.toList
          ++ w.mgr.reconnectTimer.toList := by
  obtain ⟨hc, hrr, _, _⟩ := reachable_inv w hr
  rcases hco : w.mgr.connectionTimer with _ | ch <;>
    rcases hro : w.mgr.reconnectTimer with _ | rh <;>
      simp_all [stepEvent, handleWiFiEvent, clearTimers, clearConnectionTimer,
        clearReconnectTimer, ready]

/-- Witness for C7 at the freshly constructed `exWorld` (which holds a live
connection-timeout handle `0`). -/
theorem C7_gotIP_resets_witness :
    (stepEvent exWorld WiFiMessage.gotIP).mgr.connectionTimer = none ∧
    (stepEvent exWorld WiFiMessage.gotIP).mgr.reconnectTimer = none ∧
    (stepEvent exWorld WiFiMessage.gotIP).liveConnection = [] ∧
    (stepEvent exWorld WiFiMessage.gotIP).liveReconnect = [] ∧
    (stepEvent exWorld WiFiMessage.gotIP).mgr.APIndex = 0 ∧
    (stepEvent exWorld WiFiMessage.gotIP).mgr.currentState = WiFiMessage.gotIP ∧
    ready (stepEvent exWorld WiFiMessage.gotIP).mgr = true ∧
    (stepEvent exWorld WiFiMessage.gotIP).callbackTrace = [WiFiMessage.gotIP] ∧
    (stepEvent exWorld WiFiMessage.gotIP).clearedHandles = [0] :=
  C7_gotIP_resets exWorld reachable_exWorld

/-- C10: a Connected manager receiving `lostIP` has its state set to
`lostIP` (so `ready` becomes `false`), the event is forwarded to the
callback, and nothing else happens: both timer handles, the live timers,
the cancel log, the cursor, and the driver-call trace are unchanged — in
particular no reconnect is scheduled. -/
theorem C10_lostIP_passthrough (w : World)
    (_hcs : w.mgr.currentState = WiFiMessage.gotIP) :
    (stepEvent w WiFiMessage.lostIP).mgr.currentState = WiFiMessage.lostIP ∧
    ready (stepEvent w WiFiMessage.lostIP).mgr = false ∧
    (stepEvent w WiFiMessage.lostIP).callbackTrace
      = w.callbackTrace ++ [WiFiMessage.lostIP] ∧
    (stepEvent w WiFiMessage.lostIP).mgr.connectionTimer = w.mgr.connectionTimer ∧
    (stepEvent w WiFiMessage.lostIP).mgr.reconnectTimer = w.mgr.reconnectTimer ∧
    (stepEvent w WiFiMessage.lostIP).mgr.APIndex = w.mgr.APIndex ∧
    (stepEvent w WiFiMessage.lostIP).liveConnection = w.liveConnection ∧
    (stepEvent w WiFiMessage.lostIP).liveReconnect = w.liveReconnect ∧
    (stepEvent w WiFiMessage.lostIP).clearedHandles = w.clearedHandles ∧
    (stepEvent w WiFiMessage.lostIP).driverCalls = w.driverCalls := by
  exact ⟨rfl, rfl, rfl, rfl, rfl, rfl, rfl, rfl, rfl, rfl⟩

/-- Witness for C10 at the Connected world `exWorldC`. -/
theorem C10_lostIP_passthrough_witness :
    (stepEvent exWorldC WiFiMessage.lostIP).mgr.currentState = WiFiMessage.lostIP ∧
    ready (stepEvent exWorldC WiFiMessage.lostIP).mgr = false ∧
    (stepEvent exWorldC WiFiMessage.lostIP).callbackTrace
      = exWorldC.callbackTrace ++ [WiFiMessage.lostIP] ∧
    (stepEvent exWorldC WiFiMessage.lostIP).mgr.connectionTimer
      = exWorldC.mgr.connectionTimer ∧
    (stepEvent exWorldC WiFiMessage.lostIP).mgr.reconnectTimer
      = exWorldC.mgr.reconnectTimer ∧
    (stepEvent exWorldC WiFiMessage.lostIP).mgr.APIndex = exWorldC.mgr.APIndex ∧
    (stepEvent exWorldC WiFiMessage.lostIP).liveConnection
      = exWorldC.liveConnection ∧
    (stepEvent exWorldC WiFiMessage.lostIP).liveReconnect
      = exWorldC.liveReconnect ∧
    (stepEvent exWorldC WiFiMessage.lostIP).clearedHandles
      = exWorldC.clearedHandles ∧
    (stepEvent exWorldC WiFiMessage.lostIP).driverCalls = exWorldC.driverCalls :=
  C10_lostIP_passthrough exWorldC rfl

lemma option_toList_length_le_one (o : Option Nat) : o.toList.length ≤ 1 := by
  cases o <;> simp

/-- C6: in every reachable world the candidate cursor is in `[0, len)`;
a `disconnect` event advances it by exactly one modulo the candidate count
(so, starting from cursor `0`, the cursor values observed just before each
of `N` consecutive disconnects and after the last one are
`0, 1, ..., N-1, 0` in order); a `gotIP` event resets it to `0`; and every
other event leaves it unchanged. -/
theorem C6_cursor_cycling (w : World) (m : WiFiMessage) (hr : Reachable w) :
    w.mgr.APIndex < w.accessPointConfig.length ∧
    (stepEvent w WiFiMessage.disconnect).mgr.APIndex
      = (w.mgr.APIndex + 1) % w.accessPointConfig.length ∧
    (stepEvent w WiFiMessage.gotIP).mgr.APIndex = 0 ∧
    (m ≠ WiFiMessage.disconnect → m ≠ WiFiMessage.gotIP →
      (stepEvent w m).mgr.APIndex = w.mgr.APIndex) ∧
    (w.mgr.APIndex = 0 →
      (List.range (w.accessPointConfig.length + 1)).map (cursorAfter w)
        = (List.range (w.accessPointConfig.length + 1)).map
            (fun k => k % w.accessPointConfig.length)) := by
  have hap := (reachable_inv w hr).2.2.2
  refine ⟨hap, (stepEvent_disconnect_spec w).1, ?_, ?_, ?_⟩
  · rcases hco : w.mgr.connectionTimer with _ | ch <;>
      rcases hro : w.mgr.reconnectTimer with _ | rh <;>
        simp [stepEvent, handleWiFiEvent, clearTimers, clearConnectionTimer,
          clearReconnectTimer, hco, hro]
  · intro h1 h2
    cases m <;> simp_all <;>
      rcases hro : w.mgr.reconnectTimer with _ | rh <;>
        simp [stepEvent, handleWiFiEvent, clearReconnectTimer, hro]
  · intro h0
    refine List.map_congr_left ?_
    intro k _
    rw [run_disconnects w k hap, h0, Nat.zero_add]

/-- Witness for C6 at `exWorld` (two candidates, cursor `0`) with the
frame event `lostIP`. -/
theorem C6_cursor_cycling_witness :
    exWorld.mgr.APIndex < exWorld.accessPointConfig.length ∧
    (stepEvent exWorld WiFiMessage.disconnect).mgr.APIndex
      = (exWorld.mgr.APIndex + 1) % exWorld.accessPointConfig.length ∧
    (stepEvent exWorld WiFiMessage.gotIP).mgr.APIndex = 0 ∧
    (WiFiMessage.lostIP ≠ WiFiMessage.disconnect →
      WiFiMessage.lostIP ≠ WiFiMessage.gotIP →
      (stepEvent exWorld WiFiMessage.lostIP).mgr.APIndex = exWorld.mgr.APIndex) ∧
    (exWorld.mgr.APIndex = 0 →
      (List.range (exWorld.accessPointConfig.length + 1)).map (cursorAfter exWorld)
        = (List.range (exWorld.accessPointConfig.length + 1)).map
            (fun k => k % exWorld.accessPointConfig.length)) :=
  C6_cursor_cycling exWorld WiFiMessage.lostIP reachable_exWorld

/-- C9: in every reachable world the live timer handles of each role are
exactly the (at most one) handle the manager holds for that role, and this
is preserved by every possible next step — in the model `Timer.set` only
adds a live handle and never removes one, so the count staying at one per
role certifies that every scheduling of a timer of a given role is preceded
by the cancellation (or firing) of any previous handle of that role. -/
theorem C9_timer_exclusivity (w : World) (s : Step) (hr : Reachable w) :
    w.liveConnection = w.mgr.connectionTimer.toList ∧
    w.liveReconnect = w.mgr.reconnectTimer.toList ∧
    w.liveConnection.length ≤ 1 ∧
    w.liveReconnect.length ≤ 1 ∧
    (stepWorld w s).liveConnection = (stepWorld w s).mgr.connectionTimer.toList ∧
    (stepWorld w s).liveReconnect = (stepWorld w s).mgr.reconnectTimer.toList ∧
    (stepWorld w s).liveConnection.length ≤ 1 ∧
    (stepWorld w s).liveReconnect.length ≤ 1 := by
  have h1 := reachable_inv w hr
  have h2 := reachable_inv _ (reachable_stepWorld w s hr)
  refine ⟨h1.1, h1.2.1, ?_, ?_, h2.1, h2.2.1, ?_, ?_⟩
  · rw [h1.1]; exact option_toList_length_le_one _
  · rw [h1.2.1]; exact option_toList_length_le_one _
  · rw [h2.1]; exact option_toList_length_le_one _
  · rw [h2.2.1]; exact option_toList_length_le_one _

/-- Witness for C9 at `exWorld` under a `disconnect` delivery. -/
theorem C9_timer_exclusivity_witness :
    exWorld.liveConnection = exWorld.mgr.connectionTimer.toList ∧
    exWorld.liveReconnect = exWorld.mgr.reconnectTimer.toList ∧
    exWorld.liveConnection.length ≤ 1 ∧
    exWorld.liveReconnect.length ≤ 1 ∧
    (stepWorld exWorld (Step.event WiFiMessage.disconnect)).liveConnection
      = (stepWorld exWorld (Step.event WiFiMessage.disconnect)).mgr.connectionTimer.toList ∧
    (stepWorld exWorld (Step.event WiFiMessage.disconnect)).liveReconnect
      = (stepWorld exWorld (Step.event WiFiMessage.disconnect)).mgr.reconnectTimer.toList ∧
    (stepWorld exWorld (Step.event WiFiMessage.disconnect)).liveConnection.length ≤ 1 ∧
    (stepWorld exWorld (Step.event WiFiMessage.disconnect)).liveReconnect.length ≤ 1 :=
  C9_timer_exclusivity exWorld (Step.event WiFiMessage.disconnect) reachable_exWorld

/-- C8: when the reconnect-backoff timer (handle `h`) fires, the manager
first drops the backoff handle, then attempts a driver connect with the
candidate at the current cursor (recorded in the trace with the driver's
synchronous verdict `co`), and on success starts a fresh connection-timeout
timer with the cursor and callback trace untouched; on synchronous failure
the whole disconnect-handling procedure is re-run on the spot — advancing
the cursor by one modulo the candidate count and scheduling a new backoff
timer — and no error reaches the caller (the handler is total and the
callback only ever receives event tags). -/
theorem C8_backoff_expiry (w : World) (h : Nat) (co : Bool)
    (hs : w.mgr.reconnectTimer = some h)
    (hi : w.mgr.APIndex < w.accessPointConfig.length) :
    (fireReconnectTimer w co).driverCalls
      = w.driverCalls
        ++ [DriverCall.connectCall (w.accessPointConfig.get? w.mgr.APIndex) co] ∧
    (co = true →
      (fireReconnectTimer w co).mgr.reconnectTimer = none ∧
      (fireReconnectTimer w co).mgr.connectionTimer = some w.nextHandle ∧
      (fireReconnectTimer w co).nextHandle = w.nextHandle + 1 ∧
      (fireReconnectTimer w co).mgr.APIndex = w.mgr.APIndex ∧
      (fireReconnectTimer w co).callbackTrace = w.callbackTrace) ∧
    (co = false →
      fireReconnectTimer w co
        = handleDisconnect
            { w with
              mgr := { w.mgr with reconnectTimer := none }
              liveReconnect := w.liveReconnect.erase h
              driverCalls := w.driverCalls
                ++ [DriverCall.connectCall
                      (w.accessPointConfig.get? w.mgr.APIndex) false] } ∧
      (fireReconnectTimer w co).mgr.APIndex
        = (w.mgr.APIndex + 1) % w.accessPointConfig.length ∧
      (fireReconnectTimer w co).mgr.reconnectTimer = some w.nextHandle ∧
      (fireReconnectTimer w co).mgr.connectionTimer = none ∧
      (fireReconnectTimer w co).callbackTrace
        = w.callbackTrace
          ++ (if w.mgr.currentState = WiFiMessage.disconnect then []
              else [WiFiMessage.disconnect])) := by
  have hsome : w.accessPointConfig.get? w.mgr.APIndex
      = some (w.accessPointConfig.get ⟨w.mgr.APIndex, hi⟩) := List.get?_eq_get hi
  cases co
  · have hred : fireReconnectTimer w false
        = handleDisconnect
            { w with
              mgr := { w.mgr with reconnectTimer := none }
              liveReconnect := w.liveReconnect.erase h
              driverCalls := w.driverCalls
                ++ [DriverCall.connectCall
                      (w.accessPointConfig.get? w.mgr.APIndex) false] } := by
      simp [fireReconnectTimer, hs]
    have hd := handleDisconnect_spec
      { w with
        mgr := { w.mgr with reconnectTimer := none }
        liveReconnect := w.liveReconnect.erase h
        driverCalls := w.driverCalls
          ++ [DriverCall.connectCall
                (w.accessPointConfig.get? w.mgr.APIndex) false] }
    refine ⟨?_, by simp, fun _ => ⟨hred, ?_, ?_, ?_, ?_⟩⟩
    · rw [hred]; exact hd.2.2.2.2.2.2.1
    · rw [hred]; exact hd.1
    · rw [hred]; exact hd.2.2.1
    · rw [hred]; exact hd.2.1
    · rw [hred]; exact hd.2.2.2.2.2.2.2.2.2
  · have hsome2 : w.accessPointConfig[w.mgr.APIndex]?
        = some (w.accessPointConfig.get ⟨w.mgr.APIndex, hi⟩) := by
      rw [← List.get?_eq_getElem?]; exact hsome
    have hred : fireReconnectTimer w true
        = startConnectionTimer
            { w with
              mgr := { w.mgr with reconnectTimer := none }
              liveReconnect := w.liveReconnect.erase h
              driverCalls := w.driverCalls
                ++ [DriverCall.connectCall
                      (w.accessPointConfig.get? w.mgr.APIndex) true] } := by
      simp [fireReconnectTimer, hs, hsome2]
    refine ⟨by rw [hred]; rfl, fun _ => ?_, by simp⟩
    rw [hred]
    exact ⟨rfl, rfl, rfl, rfl, rfl⟩

/-- Witness for C8 at `exWorldD` (backoff handle `1` pending, cursor `1` of
two candidates) with a driver that accepts the connect. -/
theorem C8_backoff_expiry_witness :
    (fireReconnectTimer exWorldD true).driverCalls
      = exWorldD.driverCalls
        ++ [DriverCall.connectCall
              (exWorldD.accessPointConfig.get? exWorldD.mgr.APIndex) true] ∧
    (true = true →
      (fireReconnectTimer exWorldD true).mgr.reconnectTimer = none ∧
      (fireReconnectTimer exWorldD true).mgr.connectionTimer
        = some exWorldD.nextHandle ∧
      (fireReconnectTimer exWorldD true).nextHandle = exWorldD.nextHandle + 1 ∧
      (fireReconnectTimer exWorldD true).mgr.APIndex = exWorldD.mgr.APIndex ∧
      (fireReconnectTimer exWorldD true).callbackTrace
        = exWorldD.callbackTrace) ∧
    (true = false →
      fireReconnectTimer exWorldD true
        = handleDisconnect
            { exWorldD with
              mgr := { exWorldD.mgr with reconnectTimer := none }
              liveReconnect := exWorldD.liveReconnect.erase 1
              driverCalls := exWorldD.driverCalls
                ++ [DriverCall.connectCall
                      (exWorldD.accessPointConfig.get? exWorldD.mgr.APIndex)
                      false] } ∧
      (fireReconnectTimer exWorldD true).mgr.APIndex
        = (exWorldD.mgr.APIndex + 1) % exWorldD.accessPointConfig.length ∧
      (fireReconnectTimer exWorldD true).mgr.reconnectTimer
        = some exWorldD.nextHandle ∧
      (fireReconnectTimer exWorldD true).mgr.connectionTimer = none ∧
      (fireReconnectTimer exWorldD true).callbackTrace
        = exWorldD.callbackTrace
          ++ (if exWorldD.mgr.currentState = WiFiMessage.disconnect then []
              else [WiFiMessage.disconnect])) :=
  C8_backoff_expiry exWorldD 1 true rfl (by decide)
